import Mathlib

/-!
Verification development for the adaptive query-processing workflow of the
SearchForRAG intelligent QA system.  The Python agent layer
(`src/agents/*.py`, `src/core/*.py`) is shallowly embedded: Python floats
are modelled as rationals (`ℚ`), Python strings as `String` with `len`
modelled as the number of code points (`pyLen`), Python dicts carrying
stage outputs as Lean structures with one field per key used by the code,
and the external collaborators (LLM, retrieval backend, web search
provider) as explicit `Except`/record parameters.  Logging and timing
side effects are dropped; everything else follows the source line by line.
-/

/-- Number of code points of a string; Python's `len` on `str`. -/
def pyLen (s : String) : Nat := s.data.length

/-- Python's `min` on two floats (modelled as rationals). -/
def pyMin (a b : ℚ) : ℚ := if a ≤ b then a else b

/-- Python's `max` on two floats (modelled as rationals). -/
def pyMax (a b : ℚ) : ℚ := if b ≤ a then a else b

/-- Python's `str.lower()` (ASCII case mapping, which covers every cased
character occurring in the embedded texts). -/
def pyLower (s : String) : String := String.mk (s.data.map Char.toLower)

/-- Python's `str.strip()`: whitespace removed from both ends. -/
def pyStrip (s : String) : String :=
  String.mk (((s.data.dropWhile Char.isWhitespace).reverse.dropWhile
    Char.isWhitespace).reverse)

/-- Splitting a character list at every whitespace character, keeping the
(possibly empty) pieces; the accumulator holds the current piece
reversed. -/
def splitWsAux : List Char → List Char → List String
  | [], acc => [String.mk acc.reverse]
  | c :: rest, acc =>
    if c.isWhitespace then String.mk acc.reverse :: splitWsAux rest []
    else splitWsAux rest (c :: acc)

/-- Splitting a character list at every occurrence of a separator
character, keeping the (possibly empty) pieces. -/
def splitCharAux (sep : Char) : List Char → List Char → List String
  | [], acc => [String.mk acc.reverse]
  | c :: rest, acc =>
    if c == sep then String.mk acc.reverse :: splitCharAux sep rest []
    else splitCharAux sep rest (c :: acc)

/-- Python's `s.split(sep)` for a one-character separator. -/
def pySplitChar (sep : Char) (s : String) : List String :=
  splitCharAux sep s.data []

/-- Python's `sep.join(pieces)`. -/
def joinWith (sep : String) : List String → String
  | [] => ""
  | [w] => w
  | w :: ws => w ++ sep ++ joinWith sep ws

/-- Python's `s.count(c)` for a single character. -/
def pyCount (s : String) (c : Char) : Nat := (s.data.filter (fun d => d == c)).length

/-- Python's `str.split()` with no argument: split on runs of whitespace,
dropping empty pieces. -/
def pySplit (s : String) : List String :=
  (splitWsAux s.data []).filter (fun w => w ≠ "")

/-- Python's substring test `pat in s`: some suffix of `s` starts with
`pat` (the empty pattern is a substring of everything). -/
def strContains (s pat : String) : Bool :=
  s.data.tails.any (fun t => pat.data.isPrefixOf t)

/-- Python's `sum(1 for indicator in inds if indicator in s)`. -/
def countContained (inds : List String) (s : String) : Nat :=
  (inds.filter (fun i => strContains s i)).length

/-- Python's `any(indicator in s for indicator in inds)`. -/
def anyContained (inds : List String) (s : String) : Bool :=
  inds.any (fun i => strContains s i)

/-- Count of keywords of the (lowercased, whitespace-split) query that occur
in the lowercased content; the `content_matches` computation shared by the
three quality scorers. -/
def keywordMatches (content_lower : String) (query_lower : String) : Nat :=
  ((pySplit query_lower).filter (fun w => strContains content_lower w)).length

/-- `config.CONFIDENCE_THRESHOLD` (`src/core/config.py`): environment
variable default `0.7`. -/
def CONFIDENCE_THRESHOLD : ℚ := 0.7

/-- `config.MAX_WEB_RESULTS` (`src/core/config.py`). -/
def MAX_WEB_RESULTS : Nat := 5

/-! ### Local quality scorer (`src/agents/local_search.py`) -/

/-- `fact_indicators` of `_calculate_local_quality`. -/
def local_fact_indicators : List String :=
  ["是", "为", "等于", "定义为", "包括", "由", "consists", "defined as", "means", "包含",
   "数据", "统计", "研究", "报告", "实验"]

/-- `definition_indicators` of `_calculate_local_quality`. -/
def local_definition_indicators : List String :=
  ["定义", "含义", "是指", "refers to", "definition", "meaning", "即", "指的是", "表示"]

/-- Length component: `min(len(content) / 800, 1.0) * 0.3`. -/
def localLengthScore (content : String) : ℚ :=
  pyMin ((pyLen content : ℚ) / 800) 1 * 0.3

/-- Specific-facts bonus: `+0.25` when at least two fact indicators occur. -/
def localFactBonus (content_lower : String) : ℚ :=
  if 2 ≤ countContained local_fact_indicators content_lower then 0.25 else 0

/-- Definition bonus: `+0.2` when any definition indicator occurs. -/
def localDefinitionBonus (content_lower : String) : ℚ :=
  if anyContained local_definition_indicators content_lower then 0.2 else 0

/-- `semantic_score = min(content_matches / max(len(query_keywords), 1), 1.0)`. -/
def localSemanticScore (content_lower query_lower : String) : ℚ :=
  pyMin ((keywordMatches content_lower query_lower : ℚ) /
    ((max (pySplit query_lower).length 1 : ℕ) : ℚ)) 1

/-- Semantic-relevance bonus: `+0.15` when `semantic_score > 0.6` (strict). -/
def localSemanticBonus (content_lower query_lower : String) : ℚ :=
  if localSemanticScore content_lower query_lower > 0.6 then 0.15 else 0

/-- Python regex `\d+` on the content: some character is a decimal digit. -/
def hasNumbers (content : String) : Bool :=
  content.data.any Char.isDigit

/-- One position of the date regex `\d{4}年|\d{4}-\d{2}|\d{4}/\d{2}`:
four digits followed by `年`, or by `-`/`/` and two digits. -/
def isDateAt : List Char → Bool
  | d1 :: d2 :: d3 :: d4 :: rest =>
    d1.isDigit && d2.isDigit && d3.isDigit && d4.isDigit &&
    (match rest with
     | '年' :: _ => true
     | '-' :: e1 :: e2 :: _ => e1.isDigit && e2.isDigit
     | '/' :: e1 :: e2 :: _ => e1.isDigit && e2.isDigit
     | _ => false)
  | _ => false

/-- `re.search` of the date regex: some suffix position matches. -/
def hasDates (content : String) : Bool :=
  content.data.tails.any isDateAt

/-- Factual-accuracy bonus: `+0.1` when the content has numbers or dates. -/
def localAccuracyBonus (content : String) : ℚ :=
  if hasNumbers content || hasDates content then 0.1 else 0

/-- Completeness component: `+0.15` for length over 100 characters and
`+0.15` for the presence of a sentence terminator (`。` or `.`). -/
def localCompletenessScore (content : String) : ℚ :=
  (if 100 < pyLen content then 0.15 else 0) +
  (if 1 ≤ pyCount content '。' ∨ 1 ≤ pyCount content '.' then 0.15 else 0)

/-- `_calculate_local_quality(content, query)` of `local_search.py`:
empty/blank content scores 0, otherwise the component sum clamped at 1. -/
def _calculate_local_quality (content query : String) : ℚ :=
  if content = "" ∨ pyLen (pyStrip content) = 0 then 0
  else
    pyMin (localLengthScore content +
      (localFactBonus (pyLower content) + localDefinitionBonus (pyLower content) +
        localSemanticBonus (pyLower content) (pyLower query) + localAccuracyBonus content) +
      localCompletenessScore content) 1

/-! ### Global quality scorer (`src/agents/global_search.py`) -/

/-- `relationship_indicators` of `_calculate_global_quality`. -/
def global_relationship_indicators : List String :=
  ["关系", "联系", "连接", "影响", "导致", "因为", "由于", "相关", "关联", "相互作用",
   "relationship", "connection", "influence", "affect", "cause", "due to",
   "related", "associated", "between", "among", "interaction", "correlation"]

/-- `connection_indicators` of `_calculate_global_quality`. -/
def global_connection_indicators : List String :=
  ["与", "和", "同", "之间", "通过", "连接到", "链接", "桥梁", "纽带", "网络",
   "via", "through", "with", "and", "between", "connects to", "links", "network", "pathway"]

/-- `influence_indicators` of `_calculate_global_quality`. -/
def global_influence_indicators : List String :=
  ["影响", "促进", "推动", "阻碍", "帮助", "支持", "反对", "制约", "推进", "阻止",
   "influence", "promote", "drive", "hinder", "help", "support", "oppose", "constraint",
   "导致", "引起", "造成", "产生", "触发", "激发", "brings about", "leads to", "results in"]

/-- `path_indicators` of `_calculate_global_quality` (checked literally with
the substring test, exactly as the source does). -/
def global_path_indicators : List String :=
  ["通过.*到", "从.*经过.*到", "路径", "步骤", "过程", "链条", "序列",
   "path", "through.*to", "from.*via.*to", "sequence", "chain", "process", "pathway"]

/-- `structure_indicators` of `_calculate_global_quality`. -/
def global_structure_indicators : List String :=
  ["首先", "其次", "然后", "最后", "因此", "所以", "同时", "另外", "此外",
   "first", "second", "then", "finally", "therefore", "meanwhile", "additionally"]

/-- ASCII lowercase letter, the regex class `[a-z]`. -/
def isLowerAlpha (c : Char) : Bool := 'a' ≤ c && c ≤ 'z'

/-- ASCII uppercase letter, the regex class `[A-Z]`. -/
def isUpperAlpha (c : Char) : Bool := 'A' ≤ c && c ≤ 'Z'

/-- The regex class `[一-鿿]` (CJK unified ideographs). -/
def isCJK (c : Char) : Bool := 0x4e00 ≤ c.toNat && c.toNat ≤ 0x9fff

/-- Word character for the regex boundary `\b`: ASCII alphanumerics,
underscore, and CJK ideographs (the character classes occurring in the
scored texts). -/
def isWordChar (c : Char) : Bool := c.isAlphanum || c == '_' || isCJK c

/-- A `\b` boundary holds after a word character when the remaining text
does not start with another word character. -/
def boundaryOK : List Char → Bool
  | [] => true
  | c :: _ => !isWordChar c

/-- Matcher for the entity regex `\b[A-Z][a-z]+(?:\s+[A-Z][a-z]+)*\b`
starting at the current position (which must be preceded by a boundary):
returns the matched characters and the rest, following the regex engine's
greedy matching with backtracking out of the starred group.  Fuelled by the
input length. -/
def capMatchFrom : Nat → List Char → Option (List Char × List Char)
  | 0, _ => none
  | _, [] => none
  | fuel+1, c :: rest =>
    if isUpperAlpha c then
      let lows := rest.takeWhile isLowerAlpha
      let rest2 := rest.dropWhile isLowerAlpha
      if lows.isEmpty then none
      else
        let ws := rest2.takeWhile Char.isWhitespace
        let rest3 := rest2.dropWhile Char.isWhitespace
        if ws.isEmpty then
          if boundaryOK rest2 then some (c :: lows, rest2) else none
        else
          match capMatchFrom fuel rest3 with
          | some (m, r) => some (c :: lows ++ ws ++ m, r)
          | none => if boundaryOK rest2 then some (c :: lows, rest2) else none
    else none

/-- `re.findall` scan for the capitalized-entity regex: try to match at
every boundary position, resuming after each match.  The boolean tracks
whether the previous character was a word character. -/
def capEntitiesAux : Nat → List Char → Bool → List String
  | 0, _, _ => []
  | _, [], _ => []
  | fuel+1, c :: rest, prevWord =>
    if !prevWord && isUpperAlpha c then
      match capMatchFrom (fuel+1) (c :: rest) with
      | some (m, r) => String.mk m :: capEntitiesAux fuel r true
      | none => capEntitiesAux fuel rest (isWordChar c)
    else capEntitiesAux fuel rest (isWordChar c)

/-- `re.findall(r'\b[A-Z][a-z]+(?:\s+[A-Z][a-z]+)*\b', content)`. -/
def capEntities (content : String) : List String :=
  capEntitiesAux content.data.length content.data false

/-- `re.findall(r'[一-鿿]{2,}', content)`: maximal CJK runs of
length at least two. -/
def cjkEntitiesAux : Nat → List Char → List String
  | 0, _ => []
  | _, [] => []
  | fuel+1, c :: rest =>
    if isCJK c then
      let run := rest.takeWhile isCJK
      let rest2 := rest.dropWhile isCJK
      if run.isEmpty then cjkEntitiesAux fuel rest2
      else String.mk (c :: run) :: cjkEntitiesAux fuel rest2
    else cjkEntitiesAux fuel rest

/-- Chinese entity extraction of `_calculate_global_quality`. -/
def cjkEntities (content : String) : List String :=
  cjkEntitiesAux content.data.length content.data

/-- `len(set(entities + chinese_entities))`. -/
def totalEntities (content : String) : Nat :=
  ((capEntities content ++ cjkEntities content).dedup).length

/-- Gap matcher for the regex fragment `.{1,n}` followed by a continuation:
consume between one and `n` non-newline characters, then the continuation
must match (existential over the gap width, as regex backtracking gives). -/
def dotsThen (p : List Char → Bool) : Nat → List Char → Bool
  | 0, _ => false
  | _+1, [] => false
  | n+1, c :: rest => c != '\n' && (p rest || dotsThen p n rest)

/-- The pattern `从.{1,20}到.{1,20}` anchored at the current position. -/
def pathPat1At : List Char → Bool
  | '从' :: rest =>
    dotsThen (fun l => match l with
      | '到' :: r => dotsThen (fun _ => true) 20 r
      | _ => false) 20 rest
  | _ => false

/-- The pattern `通过.{1,20}实现` anchored at the current position. -/
def pathPat2At : List Char → Bool
  | '通' :: '过' :: rest =>
    dotsThen (fun l => match l with
      | '实' :: '现' :: _ => true
      | _ => false) 20 rest
  | _ => false

/-- The pattern `经过.{1,20}过程` anchored at the current position. -/
def pathPat3At : List Char → Bool
  | '经' :: '过' :: rest =>
    dotsThen (fun l => match l with
      | '过' :: '程' :: _ => true
      | _ => false) 20 rest
  | _ => false

/-- `re.search(pattern, content)` for the three `path_patterns`. -/
def hasPathPatterns (content : String) : Bool :=
  content.data.tails.any pathPat1At ||
  content.data.tails.any pathPat2At ||
  content.data.tails.any pathPat3At

/-- Length component of the global scorer:
`min(len(content) / 1500, 1.0) * 0.2`. -/
def globalLengthScore (content : String) : ℚ :=
  pyMin ((pyLen content : ℚ) / 1500) 1 * 0.2

/-- `relationship_score` accumulation of `_calculate_global_quality`
(relationships `+0.25`, connections `+0.2`, influences `+0.15`, entity
count `+0.15`, path reasoning `+0.15`). -/
def globalRelationshipScore (content : String) : ℚ :=
  let content_lower := pyLower content
  (if 3 ≤ countContained global_relationship_indicators content_lower then 0.25 else 0) +
  (if 3 ≤ countContained global_connection_indicators content_lower then 0.2 else 0) +
  (if 2 ≤ countContained global_influence_indicators content_lower then 0.15 else 0) +
  (if 4 ≤ totalEntities content then 0.15 else 0) +
  (if anyContained global_path_indicators content_lower || hasPathPatterns content
   then 0.15 else 0)

/-- `relevance_score = min(content_matches / max(len(query_keywords), 1), 1.0) * 0.2`. -/
def globalRelevanceScore (content query : String) : ℚ :=
  pyMin ((keywordMatches (pyLower content) (pyLower query) : ℚ) /
    ((max (pySplit (pyLower query)).length 1 : ℕ) : ℚ)) 1 * 0.2

/-- `structure_score` of the global scorer: logic-word bonus `+0.1` and a
layered-description bonus `+0.1` for long content with at least two
newlines. -/
def globalStructureScore (content : String) : ℚ :=
  (if 2 ≤ countContained global_structure_indicators (pyLower content) then 0.1 else 0) +
  (if 400 < pyLen content ∧ 2 ≤ pyCount content '\n' then 0.1 else 0)

/-- `density_score` of the global scorer: `+0.1` when the relationship-word
density over the whitespace-split word count exceeds `0.05`. -/
def globalDensityScore (content : String) : ℚ :=
  let total_words := (pySplit content).length
  if 0 < total_words ∧
      (countContained global_relationship_indicators (pyLower content) : ℚ) /
        (total_words : ℚ) > 0.05
  then 0.1 else 0

/-- `_calculate_global_quality(content, query)` of `global_search.py`. -/
def _calculate_global_quality (content query : String) : ℚ :=
  if content = "" ∨ pyLen (pyStrip content) = 0 then 0
  else
    pyMin (globalLengthScore content + globalRelationshipScore content +
      globalRelevanceScore content query + globalStructureScore content +
      globalDensityScore content) 1

/-! ### Hybrid quality scorer (`src/agents/hybrid_search.py`) -/

/-- `fact_indicators` of `_calculate_hybrid_quality`. -/
def hybrid_fact_indicators : List String :=
  ["数据", "统计", "研究", "报告", "调查", "实验", "证据", "定义", "含义",
   "data", "statistics", "research", "report", "survey", "experiment", "evidence",
   "definition", "meaning", "包括", "是指", "表示"]

/-- `relationship_indicators` of `_calculate_hybrid_quality`. -/
def hybrid_relationship_indicators : List String :=
  ["关系", "影响", "联系", "相关", "关联", "导致", "因为", "连接", "网络",
   "relationship", "influence", "connection", "related", "cause", "due to", "network"]

/-- `analysis_indicators` of `_calculate_hybrid_quality`. -/
def hybrid_analysis_indicators : List String :=
  ["分析", "评估", "比较", "对比", "优缺点", "优势", "劣势", "趋势", "预测", "综合",
   "analysis", "evaluation", "comparison", "pros", "cons", "advantages", "disadvantages",
   "trend", "prediction", "assess", "examine", "comprehensive", "synthesis"]

/-- `perspective_indicators` of `_calculate_hybrid_quality`. -/
def hybrid_perspective_indicators : List String :=
  ["角度", "方面", "层面", "维度", "观点", "看法", "认为", "perspective", "aspect",
   "dimension", "viewpoint", "opinion", "believe", "think", "consider",
   "一方面", "另一方面", "同时", "然而", "但是", "不过", "此外", "另外"]

/-- `depth_indicators` of `_calculate_hybrid_quality`. -/
def hybrid_depth_indicators : List String :=
  ["深入", "详细", "具体", "进一步", "更", "深层", "根本", "本质", "机制",
   "deep", "detailed", "specific", "further", "more", "underlying", "fundamental",
   "essence", "mechanism", "原因", "原理", "过程", "步骤", "逻辑"]

/-- `integration_indicators` of `_calculate_hybrid_quality`. -/
def hybrid_integration_indicators : List String :=
  ["结合", "整合", "综合", "融合", "汇总", "归纳", "总结", "综述",
   "combine", "integrate", "synthesize", "merge", "summarize", "conclude", "overview"]

/-- `structure_indicators` of `_calculate_hybrid_quality`. -/
def hybrid_structure_indicators : List String :=
  ["首先", "其次", "然后", "最后", "总之", "综上", "因此", "所以", "同时",
   "first", "second", "third", "finally", "in conclusion", "therefore", "thus", "meanwhile"]

/-- The punctuation characters counted by the hybrid density bonus. -/
def hybridPunctuationChars : List Char :=
  ['.', ',', ';', ':', '!', '?', '。', '，', '；', '：', '！', '？']

/-- Length component of the hybrid scorer:
`min(len(content) / 2000, 1.0) * 0.15`. -/
def hybridLengthScore (content : String) : ℚ :=
  pyMin ((pyLen content : ℚ) / 2000) 1 * 0.15

/-- `comprehensiveness_score` accumulation of `_calculate_hybrid_quality`
(facts `+0.15`, relationships `+0.15`, analysis `+0.2`, perspectives
`+0.15`, depth `+0.15`, integration `+0.1`). -/
def hybridComprehensivenessScore (content : String) : ℚ :=
  let content_lower := pyLower content
  (if 3 ≤ countContained hybrid_fact_indicators content_lower then 0.15 else 0) +
  (if 3 ≤ countContained hybrid_relationship_indicators content_lower then 0.15 else 0) +
  (if 3 ≤ countContained hybrid_analysis_indicators content_lower then 0.2 else 0) +
  (if 4 ≤ countContained hybrid_perspective_indicators content_lower then 0.15 else 0) +
  (if 2 ≤ countContained hybrid_depth_indicators content_lower ∧ 600 < pyLen content
   then 0.15 else 0) +
  (if 2 ≤ countContained hybrid_integration_indicators content_lower then 0.1 else 0)

/-- `relevance_score` of the hybrid scorer (`* 0.15`). -/
def hybridRelevanceScore (content query : String) : ℚ :=
  pyMin ((keywordMatches (pyLower content) (pyLower query) : ℚ) /
    ((max (pySplit (pyLower query)).length 1 : ℕ) : ℚ)) 1 * 0.15

/-- `structure_score` of the hybrid scorer: logic-word bonus `+0.1` and a
paragraph-organization bonus `+0.1` for at least four newline-separated
paragraphs whose stripped length exceeds 80. -/
def hybridStructureScore (content : String) : ℚ :=
  (if 3 ≤ countContained hybrid_structure_indicators (pyLower content) then 0.1 else 0) +
  (if 4 ≤ ((pySplitChar '\n' content).filter (fun p => 80 < pyLen (pyStrip p))).length
   then 0.1 else 0)

/-- `density_score` of the hybrid scorer: `+0.15` for long content whose
punctuation density exceeds `0.03` and whose keyword density exceeds `0.05`. -/
def hybridDensityScore (content : String) : ℚ :=
  let content_lower := pyLower content
  let fact_count := countContained hybrid_fact_indicators content_lower
  let relationship_count := countContained hybrid_relationship_indicators content_lower
  let analysis_count := countContained hybrid_analysis_indicators content_lower
  let punctuation_count := (content.data.filter (fun c => hybridPunctuationChars.contains c)).length
  if 1000 < pyLen content ∧
      (punctuation_count : ℚ) / (pyLen content : ℚ) > 0.03 ∧
      ((fact_count + relationship_count + analysis_count : ℕ) : ℚ) /
        ((pySplit content).length : ℚ) > 0.05
  then 0.15 else 0

/-- `synergy_score` of the hybrid scorer: `+0.1` when facts and
relationships co-occur, `+0.1` for long content rich in all three
indicator groups. -/
def hybridSynergyScore (content : String) : ℚ :=
  let content_lower := pyLower content
  let fact_count := countContained hybrid_fact_indicators content_lower
  let relationship_count := countContained hybrid_relationship_indicators content_lower
  let analysis_count := countContained hybrid_analysis_indicators content_lower
  (if 2 ≤ fact_count ∧ 2 ≤ relationship_count then 0.1 else 0) +
  (if 800 < pyLen content ∧ 6 ≤ fact_count + relationship_count + analysis_count
   then 0.1 else 0)

/-- `_calculate_hybrid_quality(content, query)` of `hybrid_search.py`. -/
def _calculate_hybrid_quality (content query : String) : ℚ :=
  if content = "" ∨ pyLen (pyStrip content) = 0 then 0
  else
    pyMin (hybridLengthScore content + hybridComprehensivenessScore content +
      hybridRelevanceScore content query + hybridStructureScore content +
      hybridDensityScore content + hybridSynergyScore content) 1

/-! ### State model (`src/core/state.py`)

The LangGraph `AgentState` is a `TypedDict`; stages read keys with
`state.get(key, default)`.  Keys that the embedded code reads only through
`get` with a default that matters for truthiness (`processed_query`) are
modelled as `Option`; the remaining keys are total fields, with the nested
`lightrag_results` dict modelled by the record of the keys the agents read
from it. -/

/-- The `lightrag_results` nested dict: the keys read by the downstream
agents (`content`, `mode`, `query`, `confidence`, `error`). -/
structure LightragResults where
  content : String
  mode : String
  query : String
  confidence : ℚ
  error : Option String
deriving DecidableEq

/-- One entry of `web_results` as consumed by answer generation. -/
structure WebResultEntry where
  title : String
  content : String
  url : String
  domain : String
  score : ℚ
  snippet : String
deriving DecidableEq

/-- The workflow state (`AgentState` of `src/core/state.py`), restricted to
the keys the embedded stages read or write. -/
structure AgentState where
  user_query : String
  processed_query : Option String
  query_type : String
  lightrag_mode : String
  key_entities : List String
  lightrag_results : LightragResults
  retrieval_score : ℚ
  retrieval_success : Bool
  confidence_score : ℚ
  need_web_search : Bool
  confidence_threshold : ℚ
  web_results : List WebResultEntry
deriving DecidableEq

/-! ### Confidence gate (`src/agents/quality_assessment.py`) -/

/-- Result record of the assessment, mirroring the keys returned by
`quality_assessment_node` (the five-key update dict); the breakdown dict
is an association list in the source's insertion order. -/
structure QualityAssessmentR where
  confidence_score : ℚ
  confidence_breakdown : List (String × ℚ)
  need_web_search : Bool
  threshold : ℚ
  reason : String
deriving DecidableEq

/-- `_evaluate_retrieval_score`. -/
def _evaluate_retrieval_score (s : AgentState) : ℚ := s.retrieval_score

/-- `_evaluate_content_completeness`: length buckets over the stripped
retrieved content. -/
def _evaluate_content_completeness (s : AgentState) : ℚ :=
  let content := s.lightrag_results.content
  if content = "" then 0
  else
    let content_length := pyLen (pyStrip content)
    if 800 ≤ content_length then 1
    else if 400 ≤ content_length then 0.9
    else if 200 ≤ content_length then 0.7
    else if 100 ≤ content_length then 0.6
    else if 50 ≤ content_length then 0.4
    else 0.2

/-- Per-entity contribution of `_evaluate_entity_coverage`: full credit for
an exact (lowercased) substring match, otherwise partial credit
`(matched_words / len(entity_words)) * 0.6` when some word matches. -/
def entityScore (content_lower : String) (entity : String) : ℚ :=
  let entity_lower := pyLower entity
  if strContains content_lower entity_lower then 1
  else
    let entity_words := pySplit entity_lower
    let matched_words := (entity_words.filter (fun w => strContains content_lower w)).length
    if 0 < matched_words then ((matched_words : ℚ) / (entity_words.length : ℚ)) * 0.6
    else 0

/-- `_evaluate_entity_coverage`: full marks with no expected entities, zero
for empty content, otherwise average entity score with the lenient
coverage add-ons. -/
def _evaluate_entity_coverage (s : AgentState) : ℚ :=
  if s.key_entities = [] then 1
  else
    let content := pyLower s.lightrag_results.content
    if content = "" then 0
    else
      let total_score := (s.key_entities.map (entityScore content)).sum
      let coverage := total_score / (s.key_entities.length : ℚ)
      if 0.8 ≤ coverage then pyMin (coverage + 0.1) 1
      else if 0.5 ≤ coverage then pyMin (coverage + 0.15) 1
      else pyMin (coverage + 0.2) 0.8

/-- The `ideal_matches` table of `_evaluate_mode_effectiveness`. -/
def idealMatches (query_type : String) : Option String :=
  if query_type = "FACTUAL" then some "local"
  else if query_type = "RELATIONAL" then some "global"
  else if query_type = "ANALYTICAL" then some "hybrid"
  else none

/-- `_evaluate_mode_effectiveness`: 1.0 on the ideal pairing, 0.8 for
hybrid, 0.6 otherwise. -/
def _evaluate_mode_effectiveness (s : AgentState) : ℚ :=
  if idealMatches s.query_type = some s.lightrag_mode then 1
  else if s.lightrag_mode = "hybrid" then 0.8
  else 0.6

/-- `_evaluate_query_specificity`: buckets over the word count of the raw
user query. -/
def _evaluate_query_specificity (s : AgentState) : ℚ :=
  let query_length := (pySplit s.user_query).length
  if 10 ≤ query_length then 1
  else if 5 ≤ query_length then 0.8
  else if 3 ≤ query_length then 0.6
  else 0.4

/-- The mode-keyed `local_bonus` table of
`_comprehensive_quality_assessment` (default `0.08`). -/
def localBonusFor (mode : String) : ℚ :=
  if mode = "local" then 0.10
  else if mode = "global" then 0.12
  else if mode = "hybrid" then 0.15
  else 0.08

/-- `_get_dynamic_threshold`: base threshold plus the per-type adjustment,
clamped to `[0.3, 0.9]`. -/
def _get_dynamic_threshold (s : AgentState) : ℚ :=
  let adjustment : ℚ :=
    if s.query_type = "FACTUAL" then 0.05
    else if s.query_type = "RELATIONAL" then -0.05
    else if s.query_type = "ANALYTICAL" then -0.15
    else 0
  pyMax 0.3 (pyMin 0.9 (CONFIDENCE_THRESHOLD + adjustment))

/-- The Chinese display names of the five factors used in the generated
reason text. -/
def factorDisplayName (f : String) : String :=
  if f = "retrieval_score" then "检索质量"
  else if f = "content_completeness" then "内容完整性"
  else if f = "entity_coverage" then "实体覆盖度"
  else if f = "mode_effectiveness" then "模式有效性"
  else if f = "query_specificity" then "查询特异性"
  else f

/-- Rendering of a score inside the reason text.  The source prints floats
with two decimals; the embedding renders the exact rational, which carries
the same information. -/
def ratStr (q : ℚ) : String := toString q

/-- `_generate_assessment_reason`: base comparison sentence plus remarks on
the lowest factor (below 0.5) and the highest factor (above 0.8), the
factors sorted ascending by score. -/
def _generate_assessment_reason (confidence_score threshold : ℚ)
    (factors : List (String × ℚ)) : String :=
  let base_reason := "置信度 " ++ ratStr confidence_score ++ " " ++
    (if confidence_score < threshold then "<" else ">=") ++ " 阈值 " ++ ratStr threshold
  let sorted_factors := factors.mergeSort (fun a b => a.2 ≤ b.2)
  match sorted_factors.head?, sorted_factors.getLast? with
  | some (lowest_factor, lowest_score), some (highest_factor, highest_score) =>
    let detailed_reasons :=
      (if lowest_score < 0.5 then
        [factorDisplayName lowest_factor ++ "偏低(" ++ ratStr lowest_score ++ ")"] else []) ++
      (if highest_score > 0.8 then
        [factorDisplayName highest_factor ++ "较高(" ++ ratStr highest_score ++ ")"] else [])
    if detailed_reasons ≠ [] then base_reason ++ "；" ++ joinWith "; " detailed_reasons
    else base_reason
  | _, _ => base_reason

/-- The weighted factor sum
`sum(factors[factor] * weights[factor] for factor in factors)` with the
fixed weight table 0.3/0.25/0.2/0.15/0.1. -/
def weightedFactorSum (s : AgentState) : ℚ :=
  _evaluate_retrieval_score s * 0.3 +
  _evaluate_content_completeness s * 0.25 +
  _evaluate_entity_coverage s * 0.2 +
  _evaluate_mode_effectiveness s * 0.15 +
  _evaluate_query_specificity s * 0.1

/-- The guard of the local-knowledge bonus: successful retrieval with over
50 stripped characters of content. -/
def contentBonusApplies (s : AgentState) : Bool :=
  s.retrieval_success && s.lightrag_results.content != "" &&
    decide (50 < pyLen (pyStrip s.lightrag_results.content))

/-- `_comprehensive_quality_assessment`: the five weighted factors, the
mode-dependent local-knowledge bonus for successful retrieval with over 50
stripped characters of content, the cap at 1.0, the dynamic threshold and
the escalation decision. -/
def _comprehensive_quality_assessment (s : AgentState) : QualityAssessmentR :=
  let factors : List (String × ℚ) :=
    [("retrieval_score", _evaluate_retrieval_score s),
     ("content_completeness", _evaluate_content_completeness s),
     ("entity_coverage", _evaluate_entity_coverage s),
     ("mode_effectiveness", _evaluate_mode_effectiveness s),
     ("query_specificity", _evaluate_query_specificity s)]
  let with_bonus : ℚ :=
    if contentBonusApplies s
    then weightedFactorSum s + localBonusFor s.lightrag_mode
    else weightedFactorSum s
  let confidence_score := pyMin with_bonus 1
  let threshold := _get_dynamic_threshold s
  { confidence_score := confidence_score,
    confidence_breakdown := factors,
    need_web_search := confidence_score < threshold,
    threshold := threshold,
    reason := _generate_assessment_reason confidence_score threshold factors }

/-- `quality_assessment_node`: short-circuits to the fixed failure record
when retrieval did not succeed, otherwise runs the comprehensive
assessment. -/
def quality_assessment_node (s : AgentState) : QualityAssessmentR :=
  if s.retrieval_success = false then
    { confidence_score := 0,
      confidence_breakdown :=
        [("retrieval_score", 0), ("content_completeness", 0),
         ("entity_coverage", 0), ("mode_effectiveness", 0)],
      need_web_search := true,
      threshold := CONFIDENCE_THRESHOLD,
      reason := "LightRAG检索失败，需要网络搜索补充" }
  else _comprehensive_quality_assessment s

/-! ### Strategy router (`src/agents/strategy_route.py`) -/

/-- The nested `route_decision` payload dict built by
`_create_validated_route_decision`. -/
structure RouteDecisionInfo where
  input_query_type : String
  selected_mode : String
  target_node : String
  reasoning : String
  validation_status : String
  auto_corrected : Bool
deriving DecidableEq

/-- Modelled from the spec: the `RouteDecision` Pydantic model lives in the
repository's `schemas` module, which is not among the sources.  Per the
spec's router section it is the typed carrier of the routing outcome; the
constructor stores the given fields and `to_dict` returns them unchanged,
so it is modelled as a plain record. -/
structure RouteDecision where
  lightrag_mode : String
  query_type : String
  next_node : String
  route_decision : RouteDecisionInfo
deriving DecidableEq

/-- The `expected_mapping` dict of `_create_validated_route_decision`
(also `get_strategy_route_mapping`). -/
def expectedMapping (query_type : String) : Option String :=
  if query_type = "FACTUAL" then some "local"
  else if query_type = "RELATIONAL" then some "global"
  else if query_type = "ANALYTICAL" then some "hybrid"
  else none

/-- The `route_mapping` dict: mode to executor node, with the legacy
degradations `naive → local_search` and `mix → hybrid_search`. -/
def routeMapping (mode : String) : Option String :=
  if mode = "local" then some "local_search"
  else if mode = "global" then some "global_search"
  else if mode = "hybrid" then some "hybrid_search"
  else if mode = "naive" then some "local_search"
  else if mode = "mix" then some "hybrid_search"
  else none

/-- `_create_validated_route_decision(query_type, lightrag_mode, user_query)`:
corrects the mode to the canonical mapping (default `hybrid`), picks the
target node, and builds the decision payload.  Note that the source
overwrites its `lightrag_mode` variable *before* computing the
`auto_corrected` flag, which the embedding reproduces faithfully
(`mode2` is the overwritten variable). -/
def _create_validated_route_decision (query_type lightrag_mode user_query : String) :
    RouteDecision :=
  let expected_mode := (expectedMapping query_type).getD "hybrid"
  let mode2 := if lightrag_mode != expected_mode then expected_mode else lightrag_mode
  let next_node := (routeMapping mode2).getD "hybrid_search"
  { lightrag_mode := mode2,
    query_type := query_type,
    next_node := next_node,
    route_decision :=
      { input_query_type := query_type,
        selected_mode := mode2,
        target_node := next_node,
        reasoning := query_type ++ "类型查询使用" ++ mode2 ++ "模式检索",
        validation_status := "validated",
        auto_corrected := mode2 != (expectedMapping query_type).getD mode2 } }

/-! ### Query classifier fallback (`src/agents/query_analysis.py`) -/

/-- The classifier result record (`QueryAnalysisResult` of
`src/core/state.py`). -/
structure QueryAnalysisResultR where
  query_type : String
  lightrag_mode : String
  key_entities : List String
  processed_query : String
  reasoning : String
deriving DecidableEq

/-- Modelled from the spec: `create_fallback_query_analysis` is imported
from the repository's `schemas` module, which is not among the sources.
Spec §4.1: on failure "classification falls back deterministically to
query_type ANALYTICAL, retrieval_mode hybrid, key_entities empty,
normalized_query the raw query"; the reasoning records the triggering
error. -/
def create_fallback_query_analysis (raw_query error_msg : String) : QueryAnalysisResultR :=
  { query_type := "ANALYTICAL",
    lightrag_mode := "hybrid",
    key_entities := [],
    processed_query := raw_query,
    reasoning := "查询分析失败，使用默认配置。错误: " ++ error_msg }

/-- Modelled from the spec: `ensure_type_mode_consistency` of the missing
`schemas` module.  Spec §4.1: "the classifier enforces the type→mode
invariant and corrects `retrieval_mode` if inconsistent". -/
def ensure_type_mode_consistency (r : QueryAnalysisResultR) : QueryAnalysisResultR :=
  match expectedMapping r.query_type with
  | some expected => if r.lightrag_mode ≠ expected then { r with lightrag_mode := expected } else r
  | none => r

/-- `query_analysis_node`: the external structured LLM call is the
parameter; a successful call is post-processed for type/mode consistency,
any failure takes the deterministic fallback. -/
def query_analysis_node (s : AgentState) (llm : Except String QueryAnalysisResultR) :
    QueryAnalysisResultR :=
  match llm with
  | .ok r => ensure_type_mode_consistency r
  | .error e => create_fallback_query_analysis s.user_query e

/-! ### Answer synthesizer (`src/agents/answer_generation.py`)

The prompt text assembled by `_build_answer_prompt`/`_format_web_results`
is consumed only by the external LLM, which is a parameter of the
embedding, so the prompt string itself is not modelled; every output field
of the node is. -/

/-- The `context_info` dict of `_collect_context_information`. -/
structure ContextInfo where
  context_parts : List String
  lightrag_info : Option LightragResults
  web_info : Option (List WebResultEntry)
  total_sources : Nat
deriving DecidableEq

/-- One entry of the `sources` list built by `_organize_sources`. -/
inductive SourceEntry
  | lightrag_knowledge (mode : String) (content : String) (confidence : ℚ) (query : String)
  | web_search (title : String) (url : String) (domain : String) (score : ℚ) (snippet : String)
deriving DecidableEq

/-- The update dict returned by `answer_generation_node`. -/
structure AnswerGenOutput where
  final_answer : String
  sources : List SourceEntry
  context_used : Nat
  lightrag_mode_used : String
  answer_confidence : ℚ
deriving DecidableEq

/-- Lines of one entry of `_format_web_results`: numbered title with
domain, the content truncated to 300 characters, the url line, and a blank
separator line. -/
def formatWebEntry (i : Nat) (r : WebResultEntry) : List String :=
  let content :=
    if 300 < pyLen r.content then String.mk (r.content.data.take 300) ++ "..." else r.content
  [toString i ++ ". **" ++ r.title ++ "** (" ++ r.domain ++ ")"] ++
  (if content ≠ "" then ["   " ++ content] else []) ++
  (if r.url ≠ "" then ["   来源: " ++ r.url] else []) ++
  [""]

/-- `_format_web_results`: the first three results rendered and joined
with newlines; a placeholder string when the list is empty. -/
def _format_web_results (web_results : List WebResultEntry) : String :=
  if web_results = [] then "无有效的网络搜索结果"
  else
    joinWith "\n"
      ((List.enumFrom 1 (web_results.take 3)).flatMap (fun p => formatWebEntry p.1 p.2))

/-- `_collect_context_information`: the retrieval context part (when
content is nonempty) followed by the web context part (when web results
exist), with the source counter. -/
def _collect_context_information (s : AgentState) : ContextInfo :=
  let c0 : ContextInfo := ⟨[], none, none, 0⟩
  let c1 :=
    if s.lightrag_results.content ≠ "" then
      { c0 with
        context_parts := c0.context_parts ++
          ["**本地知识库检索结果** (使用 " ++ s.lightrag_results.mode ++ " 模式)：\n" ++
            s.lightrag_results.content],
        lightrag_info := some s.lightrag_results,
        total_sources := c0.total_sources + 1 }
    else c0
  if s.web_results ≠ [] then
    { c1 with
      context_parts := c1.context_parts ++
        ["**网络搜索补充信息**：\n" ++ _format_web_results s.web_results],
      web_info := some s.web_results,
      total_sources := c1.total_sources + s.web_results.length }
  else c1

/-- `_generate_answer_with_llm`: the external call is the parameter; its
exception is caught and turned into the error-string answer, so this
helper never raises. -/
def _generate_answer_with_llm (llm : Except String String) : String :=
  match llm with
  | .ok response => response.trim
  | .error e => "抱歉，答案生成过程中发生错误: " ++ e

/-- `_calculate_answer_confidence`: base confidence plus the retrieval-mode
bonus, the web-result bonus `min(count * 0.05, 0.15)`, the multi-source
bonus and the retrieval-success bonus, capped at 1.0. -/
def _calculate_answer_confidence (s : AgentState) (ci : ContextInfo) : ℚ :=
  let base_confidence := s.confidence_score
  let mode_bonus : ℚ :=
    match ci.lightrag_info with
    | some info =>
      if info.mode = "local" then 0.1
      else if info.mode = "global" then 0.15
      else if info.mode = "hybrid" then 0.2
      else 0.1
    | none => 0
  let web_bonus : ℚ :=
    match ci.web_info with
    | some l => if l ≠ [] then pyMin ((l.length : ℚ) * 0.05) 0.15 else 0
    | none => 0
  let count_bonus : ℚ := if 1 < ci.total_sources then 0.1 else 0
  let success_bonus : ℚ := if s.retrieval_success then 0.05 else 0
  pyMin (base_confidence + (mode_bonus + web_bonus + count_bonus + success_bonus)) 1

/-- `_organize_sources`: the retrieval source (content truncated to 200
characters plus an ellipsis) followed by one web source per result. -/
def _organize_sources (ci : ContextInfo) : List SourceEntry :=
  (match ci.lightrag_info with
   | some info =>
     [SourceEntry.lightrag_knowledge info.mode
       (String.mk (info.content.data.take 200) ++ "...") info.confidence info.query]
   | none => []) ++
  (match ci.web_info with
   | some l => l.map (fun r => SourceEntry.web_search r.title r.url r.domain r.score r.snippet)
   | none => [])

/-- `answer_generation_node`: collects context, generates the answer (the
LLM failure is already recovered inside `_generate_answer_with_llm`),
computes answer confidence and the source list.  The node's outer
`except` branch — which returns confidence 0.0 and no sources — is only
reachable through an exception elsewhere in the body, all of which is
total here. -/
def answer_generation_node (s : AgentState) (llm : Except String String) : AnswerGenOutput :=
  let context_info := _collect_context_information s
  { final_answer := _generate_answer_with_llm llm,
    sources := _organize_sources context_info,
    context_used := context_info.context_parts.length,
    lightrag_mode_used := s.lightrag_mode,
    answer_confidence := _calculate_answer_confidence s context_info }

/-! ### Web escalation result processing (`src/agents/web_search.py`) -/

/-- One raw result dict from the search provider, with the keys
`_process_search_results` reads. -/
structure RawSearchResult where
  title : String
  content : String
  url : String
  score : ℚ
deriving DecidableEq

/-- One processed result dict.  The `source_type` value is the constant
`"web_search"`; the derived `snippet`/`domain` display fields do not
participate in cleaning, filtering, ordering or capping and are not
modelled. -/
structure ProcessedSearchResult where
  title : String
  content : String
  url : String
  score : ℚ
deriving DecidableEq

/-- `_clean_content`: whitespace runs collapsed to single spaces by
splitting and rejoining, then truncation to 1000 characters plus an
ellipsis. -/
def _clean_content (content : String) : String :=
  if content = "" then ""
  else
    let collapsed := joinWith " " (pySplit content)
    if 1000 < pyLen collapsed then String.mk (collapsed.data.take 1000) ++ "..."
    else collapsed

/-- The per-result record construction inside `_process_search_results`. -/
def processOneResult (result : RawSearchResult) : ProcessedSearchResult :=
  { title := result.title,
    content := _clean_content result.content,
    url := result.url,
    score := result.score }

/-- `_process_search_results`: clean every result, keep those with over 50
characters of cleaned content, sort descending by provider score, and cap
at `MAX_WEB_RESULTS`. -/
def _process_search_results (search_results : List RawSearchResult) :
    List ProcessedSearchResult :=
  let processed := (search_results.map processOneResult).filter
    (fun r => r.content ≠ "" ∧ 50 < pyLen r.content)
  (processed.mergeSort (fun a b => b.score ≤ a.score)).take MAX_WEB_RESULTS

/-! ### Retrieval executor and workflow graph
(`src/agents/local_search.py`, `src/core/enhanced_workflow.py`) -/

/-- The dict returned by the external backend call
`query_lightrag(query, mode)`, with the keys `local_search_node` reads; an
exception from the call is the `Except.error` case of the node's
parameter. -/
structure QueryLightragResult where
  success : Bool
  content : String
  error : Option String
deriving DecidableEq

/-- The update dict returned by a retrieval executor node: the
`lightrag_results` keys (display metadata omitted) plus the score and
success flag. -/
structure SearchNodeOutput where
  content : String
  mode : String
  query : String
  error : Option String
  retrieval_score : ℚ
  retrieval_success : Bool
deriving DecidableEq

/-- `local_search_node`: fixed `local` mode.  On backend success the local
quality scorer runs; a backend failure (`success=false`) or an exception
from the call is caught and returned as a `success=false`, score-0 update —
the node never raises. -/
def local_search_node (s : AgentState) (backend : Except String QueryLightragResult) :
    SearchNodeOutput :=
  let processed_query := s.processed_query.getD s.user_query
  match backend with
  | .ok result =>
    if result.success then
      { content := result.content, mode := "local", query := processed_query,
        error := none,
        retrieval_score := _calculate_local_quality result.content processed_query,
        retrieval_success := true }
    else
      { content := "", mode := "local", query := processed_query,
        error := some ((result.error).getD "PostgreSQL向量检索失败"),
        retrieval_score := 0, retrieval_success := false }
  | .error e =>
    { content := "", mode := "local", query := processed_query,
      error := some ("向量检索异常: " ++ e),
      retrieval_score := 0, retrieval_success := false }

/-- LangGraph merge of a retrieval executor's update dict into the state:
the `lightrag_results` value is replaced wholesale (the replaced dict has
no `confidence` key, so downstream `get` defaults it to 0). -/
def applySearchOutput (s : AgentState) (o : SearchNodeOutput) : AgentState :=
  { s with
    lightrag_results :=
      { content := o.content, mode := o.mode, query := o.query,
        confidence := 0, error := o.error },
    retrieval_score := o.retrieval_score,
    retrieval_success := o.retrieval_success }

/-- LangGraph merge of the assessment update dict into the state. -/
def applyAssessment (s : AgentState) (a : QualityAssessmentR) : AgentState :=
  { s with
    confidence_score := a.confidence_score,
    need_web_search := a.need_web_search,
    confidence_threshold := a.threshold }

/-- The workflow graph nodes of `IntelligentQAWorkflow` plus the LangGraph
terminal `END`. -/
inductive WFNode
  | query_analysis
  | strategy_route
  | local_search
  | global_search
  | hybrid_search
  | quality_assessment
  | web_search
  | answer_generation
  | END
deriving DecidableEq

/-- `_route_to_search_node`: the conditional fan-out after the router,
defaulting to `local_search` on an unknown mode. -/
def _route_to_search_node (s : AgentState) : WFNode :=
  if s.lightrag_mode = "local" then .local_search
  else if s.lightrag_mode = "global" then .global_search
  else if s.lightrag_mode = "hybrid" then .hybrid_search
  else .local_search

/-- `_should_use_web_search`: the conditional branch after assessment. -/
def _should_use_web_search (s : AgentState) : WFNode :=
  if s.need_web_search then .web_search else .answer_generation

/-- The edge structure configured by `IntelligentQAWorkflow._add_edges`:
every retrieval executor has an unconditional edge to
`quality_assessment`; the only terminal is `END`, reached from
`answer_generation`; the graph has no error node. -/
def workflow_successor (n : WFNode) (s : AgentState) : Option WFNode :=
  match n with
  | .query_analysis => some .strategy_route
  | .strategy_route => some (_route_to_search_node s)
  | .local_search => some .quality_assessment
  | .global_search => some .quality_assessment
  | .hybrid_search => some .quality_assessment
  | .quality_assessment => some (_should_use_web_search s)
  | .web_search => some .answer_generation
  | .answer_generation => some .END
  | .END => none

/-! ### Concrete example inputs used by the witnesses and counterexamples -/

/-- The state built by `tests/test_workflow.py`,
`TestAnswerGenerationNode.setUp`: local-mode retrieval content present,
base confidence 0.8, no web results. -/
def answerGenTestState : AgentState :=
  { user_query := "什么是机器学习？",
    processed_query := none,
    query_type := "FACTUAL",
    lightrag_mode := "local",
    key_entities := [],
    lightrag_results :=
      { content := "机器学习是一种人工智能技术...", mode := "local",
        query := "", confidence := 0, error := none },
    retrieval_score := 0,
    retrieval_success := false,
    confidence_score := 0.8,
    need_web_search := false,
    confidence_threshold := 0.7,
    web_results := [] }

/-- A state as it stands when the routed `local_search` executor runs: a
FACTUAL query routed to `local` mode, nothing retrieved yet. -/
def c3InitState : AgentState :=
  { user_query := "OpenAI在2024年筹集了多少资金？",
    processed_query := none,
    query_type := "FACTUAL",
    lightrag_mode := "local",
    key_entities := [],
    lightrag_results := { content := "", mode := "", query := "", confidence := 0, error := none },
    retrieval_score := 0,
    retrieval_success := false,
    confidence_score := 0,
    need_web_search := false,
    confidence_threshold := 0.7,
    web_results := [] }

/-- A backend reply reporting failure (`success=false`). -/
def c3FailedBackend : Except String QueryLightragResult :=
  .ok { success := false, content := "", error := some "connection refused" }

/-- A backend call that raised (modelled as the `error` case). -/
def c3RaisedBackend : Except String QueryLightragResult := .error "timeout"

/-- The executor output on the failing backend reply. -/
def c3SearchOutput : SearchNodeOutput := local_search_node c3InitState c3FailedBackend

/-- The state after merging the failing executor output. -/
def c3State1 : AgentState := applySearchOutput c3InitState c3SearchOutput

/-- The assessment of the failed retrieval. -/
def c3Assessment : QualityAssessmentR := quality_assessment_node c3State1

/-- The state after merging the assessment. -/
def c3State2 : AgentState := applyAssessment c3State1 c3Assessment

/-- A state with a failed retrieval, for the short-circuit witness. -/
def c5FailState : AgentState :=
  { user_query := "Databricks的最新估值是多少？",
    processed_query := none,
    query_type := "FACTUAL",
    lightrag_mode := "local",
    key_entities := ["Databricks"],
    lightrag_results := { content := "", mode := "local", query := "", confidence := 0,
                          error := some "PostgreSQL向量检索失败" },
    retrieval_score := 0,
    retrieval_success := false,
    confidence_score := 0,
    need_web_search := false,
    confidence_threshold := 0.7,
    web_results := [] }

/-- A state with a successful retrieval, for the monotonicity witness. -/
def c6BaseState : AgentState :=
  { user_query := "Amazon和Anthropic的合作关系是什么？",
    processed_query := none,
    query_type := "RELATIONAL",
    lightrag_mode := "global",
    key_entities := ["Amazon", "Anthropic"],
    lightrag_results :=
      { content := "Amazon对Anthropic投资了80亿美元，双方在AWS云服务上深度合作。",
        mode := "global", query := "", confidence := 0, error := none },
    retrieval_score := 0.4,
    retrieval_success := true,
    confidence_score := 0,
    need_web_search := false,
    confidence_threshold := 0.7,
    web_results := [] }

/-- A state with no expected key entities, for the coverage witness. -/
def c10EmptyEntitiesState : AgentState :=
  { user_query := "分析这些AI公司的融资情况",
    processed_query := none,
    query_type := "ANALYTICAL",
    lightrag_mode := "hybrid",
    key_entities := [],
    lightrag_results := { content := "若干融资信息。", mode := "hybrid", query := "",
                          confidence := 0, error := none },
    retrieval_score := 0.5,
    retrieval_success := true,
    confidence_score := 0,
    need_web_search := false,
    confidence_threshold := 0.7,
    web_results := [] }

/-- A raw web search result with 60 characters of already-collapsed
content. -/
def rawWebExample : RawSearchResult :=
  { title := "Example result",
    content := "abcdefghij abcdefghij abcdefghij abcdefghij abcdefghij abcd",
    url := "http://example.com/a",
    score := 0.9 }

/-- The processed form of `rawWebExample`. -/
def processedWebExample : ProcessedSearchResult := processOneResult rawWebExample

/-! ### Helper lemmas -/

/-- `pyMin` is the lattice `min` on `ℚ`. -/
theorem pyMin_eq_min (a b : ℚ) : pyMin a b = min a b := (min_def a b).symm

/-- `pyMax` is the lattice `max` on `ℚ`. -/
theorem pyMax_eq_max (a b : ℚ) : pyMax a b = max a b := (max_def' a b).symm

/-- A conditional bonus of a nonnegative amount is nonnegative. -/
theorem iteBonus_nonneg (c : Prop) [Decidable c] {a : ℚ} (ha : 0 ≤ a) :
    0 ≤ if c then a else 0 := by
  split
  · exact ha
  · exact le_refl 0

/-- The local scorer's component sum is nonnegative. -/
theorem local_total_nonneg (content query : String) :
    0 ≤ localLengthScore content +
      (localFactBonus (pyLower content) + localDefinitionBonus (pyLower content) +
        localSemanticBonus (pyLower content) (pyLower query) + localAccuracyBonus content) +
      localCompletenessScore content := by
  have h1 : 0 ≤ localLengthScore content := by
    unfold localLengthScore
    rw [pyMin_eq_min]
    apply mul_nonneg _ (by norm_num)
    exact le_min (by positivity) (by norm_num)
  have h2 : 0 ≤ localFactBonus (pyLower content) := iteBonus_nonneg _ (by norm_num)
  have h3 : 0 ≤ localDefinitionBonus (pyLower content) := iteBonus_nonneg _ (by norm_num)
  have h4 : 0 ≤ localSemanticBonus (pyLower content) (pyLower query) := by
    unfold localSemanticBonus
    exact iteBonus_nonneg _ (by norm_num)
  have h5 : 0 ≤ localAccuracyBonus content := iteBonus_nonneg _ (by norm_num)
  have h6 : 0 ≤ localCompletenessScore content := by
    unfold localCompletenessScore
    exact add_nonneg (iteBonus_nonneg _ (by norm_num)) (iteBonus_nonneg _ (by norm_num))
  linarith

/-- The local quality score always lies in `[0, 1]`. -/
theorem local_quality_range (content query : String) :
    0 ≤ _calculate_local_quality content query ∧ _calculate_local_quality content query ≤ 1 := by
  unfold _calculate_local_quality
  split
  · norm_num
  · rw [pyMin_eq_min]
    exact ⟨le_min (local_total_nonneg content query) (by norm_num), min_le_right _ _⟩

/-- The global scorer's component sum is nonnegative. -/
theorem global_total_nonneg (content query : String) :
    0 ≤ globalLengthScore content + globalRelationshipScore content +
      globalRelevanceScore content query + globalStructureScore content +
      globalDensityScore content := by
  have h1 : 0 ≤ globalLengthScore content := by
    unfold globalLengthScore
    rw [pyMin_eq_min]
    apply mul_nonneg _ (by norm_num)
    exact le_min (by positivity) (by norm_num)
  have h2 : 0 ≤ globalRelationshipScore content := by
    unfold globalRelationshipScore
    dsimp only
    split_ifs <;> norm_num
  have h3 : 0 ≤ globalRelevanceScore content query := by
    unfold globalRelevanceScore
    rw [pyMin_eq_min]
    apply mul_nonneg _ (by norm_num)
    exact le_min (by positivity) (by norm_num)
  have h4 : 0 ≤ globalStructureScore content := by
    unfold globalStructureScore
    exact add_nonneg (iteBonus_nonneg _ (by norm_num)) (iteBonus_nonneg _ (by norm_num))
  have h5 : 0 ≤ globalDensityScore content := by
    unfold globalDensityScore
    dsimp only
    split_ifs <;> norm_num
  linarith

/-- The global quality score always lies in `[0, 1]`. -/
theorem global_quality_range (content query : String) :
    0 ≤ _calculate_global_quality content query ∧
      _calculate_global_quality content query ≤ 1 := by
  unfold _calculate_global_quality
  split
  · norm_num
  · rw [pyMin_eq_min]
    exact ⟨le_min (global_total_nonneg content query) (by norm_num), min_le_right _ _⟩

/-- The hybrid scorer's component sum is nonnegative. -/
theorem hybrid_total_nonneg (content query : String) :
    0 ≤ hybridLengthScore content + hybridComprehensivenessScore content +
      hybridRelevanceScore content query + hybridStructureScore content +
      hybridDensityScore content + hybridSynergyScore content := by
  have h1 : 0 ≤ hybridLengthScore content := by
    unfold hybridLengthScore
    rw [pyMin_eq_min]
    apply mul_nonneg _ (by norm_num)
    exact le_min (by positivity) (by norm_num)
  have h2 : 0 ≤ hybridComprehensivenessScore content := by
    unfold hybridComprehensivenessScore
    dsimp only
    split_ifs <;> norm_num
  have h3 : 0 ≤ hybridRelevanceScore content query := by
    unfold hybridRelevanceScore
    rw [pyMin_eq_min]
    apply mul_nonneg _ (by norm_num)
    exact le_min (by positivity) (by norm_num)
  have h4 : 0 ≤ hybridStructureScore content := by
    unfold hybridStructureScore
    exact add_nonneg (iteBonus_nonneg _ (by norm_num)) (iteBonus_nonneg _ (by norm_num))
  have h5 : 0 ≤ hybridDensityScore content := by
    unfold hybridDensityScore
    dsimp only
    split_ifs <;> norm_num
  have h6 : 0 ≤ hybridSynergyScore content := by
    unfold hybridSynergyScore
    dsimp only
    split_ifs <;> norm_num
  linarith

/-- The hybrid quality score always lies in `[0, 1]`. -/
theorem hybrid_quality_range (content query : String) :
    0 ≤ _calculate_hybrid_quality content query ∧
      _calculate_hybrid_quality content query ≤ 1 := by
  unfold _calculate_hybrid_quality
  split
  · norm_num
  · rw [pyMin_eq_min]
    exact ⟨le_min (hybrid_total_nonneg content query) (by norm_num), min_le_right _ _⟩

/-! ### Claim theorems -/

/-- Claim C7: each of the three quality scorers (local, global, hybrid) is
a pure deterministic function of `(content, query)` — identical inputs
give identical scores — and every score lies within `[0, 1]`. -/
theorem C7_quality_scorers_deterministic_and_bounded (content query : String) :
    (_calculate_local_quality content query = _calculate_local_quality content query ∧
      0 ≤ _calculate_local_quality content query ∧
      _calculate_local_quality content query ≤ 1) ∧
    (_calculate_global_quality content query = _calculate_global_quality content query ∧
      0 ≤ _calculate_global_quality content query ∧
      _calculate_global_quality content query ≤ 1) ∧
    (_calculate_hybrid_quality content query = _calculate_hybrid_quality content query ∧
      0 ≤ _calculate_hybrid_quality content query ∧
      _calculate_hybrid_quality content query ≤ 1) :=
  ⟨⟨rfl, local_quality_range content query⟩,
   ⟨rfl, global_quality_range content query⟩,
   ⟨rfl, hybrid_quality_range content query⟩⟩

/-- Claim C8, counterexample: with query
`"alpha beta gamma delta epsilon"` (five keywords) and content
`"alpha beta gamma"` (three of them present), the keyword overlap is
exactly `3/5 = 0.6`, yet the `+0.15` semantic-relevance bonus is not
awarded — the total score is only the length component
`16/800 * 0.3 = 3/500` — because the source tests `semantic_score > 0.6`
strictly, contradicting the claimed boundary behaviour at exactly `0.6`. -/
theorem C8_boundary_counterexample :
    localSemanticScore "alpha beta gamma" "alpha beta gamma delta epsilon" = 3/5 ∧
    localSemanticBonus "alpha beta gamma" "alpha beta gamma delta epsilon" = 0 ∧
    _calculate_local_quality "alpha beta gamma" "alpha beta gamma delta epsilon" = 3/500 := by
  have hk : keywordMatches "alpha beta gamma" "alpha beta gamma delta epsilon" = 3 := by decide
  have hq : (pySplit "alpha beta gamma delta epsilon").length = 5 := by decide
  have hs : localSemanticScore "alpha beta gamma" "alpha beta gamma delta epsilon" = 3/5 := by
    unfold localSemanticScore
    rw [hk, hq]
    norm_num [pyMin]
  have hb : localSemanticBonus "alpha beta gamma" "alpha beta gamma delta epsilon" = 0 := by
    unfold localSemanticBonus
    rw [hs]
    norm_num
  refine ⟨hs, hb, ?_⟩
  have hlow1 : pyLower "alpha beta gamma" = "alpha beta gamma" := by decide
  have hlow2 : pyLower "alpha beta gamma delta epsilon" = "alpha beta gamma delta epsilon" := by
    decide
  have hlen : pyLen "alpha beta gamma" = 16 := by decide
  have hfact : countContained local_fact_indicators "alpha beta gamma" = 0 := by decide
  have hdef : anyContained local_definition_indicators "alpha beta gamma" = false := by decide
  have hnum : hasNumbers "alpha beta gamma" = false := by decide
  have hdate : hasDates "alpha beta gamma" = false := by decide
  have hc1 : pyCount "alpha beta gamma" '。' = 0 := by decide
  have hc2 : pyCount "alpha beta gamma" '.' = 0 := by decide
  unfold _calculate_local_quality
  rw [if_neg (by decide)]
  unfold localLengthScore localFactBonus localDefinitionBonus localAccuracyBonus
    localCompletenessScore
  rw [hlow1, hlow2, hb, hlen, hfact, hdef, hnum, hdate, hc1, hc2]
  norm_num [pyMin]

/-- Claim C8 as amended: for nonblank content, the `+0.15`
semantic-relevance bonus enters the local quality score exactly when the
keyword overlap is STRICTLY greater than `0.6`; at an overlap of exactly
`0.6` (and below) the score carries no semantic bonus. -/
theorem C8_semantic_bonus_strict (content query : String)
    (h : ¬(content = "" ∨ pyLen (pyStrip content) = 0)) :
    (localSemanticScore (pyLower content) (pyLower query) > 3/5 →
      _calculate_local_quality content query =
        pyMin (localLengthScore content +
          (localFactBonus (pyLower content) + localDefinitionBonus (pyLower content) +
            (3/20 : ℚ) + localAccuracyBonus content) +
          localCompletenessScore content) 1) ∧
    (localSemanticScore (pyLower content) (pyLower query) ≤ 3/5 →
      _calculate_local_quality content query =
        pyMin (localLengthScore content +
          (localFactBonus (pyLower content) + localDefinitionBonus (pyLower content) +
            localAccuracyBonus content) +
          localCompletenessScore content) 1) := by
  constructor
  · intro hgt
    have hb : localSemanticBonus (pyLower content) (pyLower query) = 3/20 := by
      unfold localSemanticBonus
      rw [if_pos (by rw [show (0.6 : ℚ) = 3/5 by norm_num]; exact hgt)]
      norm_num
    unfold _calculate_local_quality
    rw [if_neg h, hb]
  · intro hle
    have hb : localSemanticBonus (pyLower content) (pyLower query) = 0 := by
      unfold localSemanticBonus
      rw [if_neg (by rw [show (0.6 : ℚ) = 3/5 by norm_num]; exact not_lt.mpr hle)]
    unfold _calculate_local_quality
    rw [if_neg h, hb, add_zero]

/-- Witness for the amended C8: on content `"alpha beta gamma"` and query
`"alpha beta"` the overlap is `1 > 0.6`, so the score carries the `3/20`
bonus term. -/
theorem C8_semantic_bonus_strict_witness :
    _calculate_local_quality "alpha beta gamma" "alpha beta" =
      pyMin (localLengthScore "alpha beta gamma" +
        (localFactBonus (pyLower "alpha beta gamma") +
          localDefinitionBonus (pyLower "alpha beta gamma") +
          (3/20 : ℚ) + localAccuracyBonus "alpha beta gamma") +
        localCompletenessScore "alpha beta gamma") 1 :=
  (C8_semantic_bonus_strict "alpha beta gamma" "alpha beta" (by decide)).1 (by
    have hk : keywordMatches (pyLower "alpha beta gamma") (pyLower "alpha beta") = 2 := by
      decide
    have hq : (pySplit (pyLower "alpha beta")).length = 2 := by decide
    unfold localSemanticScore
    rw [hk, hq]
    norm_num [pyMin])

/-- Claim C5: whenever retrieval did not succeed, the confidence gate
short-circuits to the fixed failure record — confidence 0.0, escalation
forced, a retrieval-failure reason — without computing the five weighted
factors (the returned breakdown is the constant four-entry zero table). -/
theorem C5_retrieval_failure_short_circuit (s : AgentState)
    (h : s.retrieval_success = false) :
    quality_assessment_node s =
      { confidence_score := 0,
        confidence_breakdown :=
          [("retrieval_score", 0), ("content_completeness", 0),
           ("entity_coverage", 0), ("mode_effectiveness", 0)],
        need_web_search := true,
        threshold := CONFIDENCE_THRESHOLD,
        reason := "LightRAG检索失败，需要网络搜索补充" } := by
  unfold quality_assessment_node
  rw [if_pos h]

/-- Witness for C5 at a concrete failed-retrieval state. -/
theorem C5_retrieval_failure_short_circuit_witness :
    quality_assessment_node c5FailState =
      { confidence_score := 0,
        confidence_breakdown :=
          [("retrieval_score", 0), ("content_completeness", 0),
           ("entity_coverage", 0), ("mode_effectiveness", 0)],
        need_web_search := true,
        threshold := CONFIDENCE_THRESHOLD,
        reason := "LightRAG检索失败，需要网络搜索补充" } :=
  C5_retrieval_failure_short_circuit c5FailState rfl

/-- Each entity's contribution to the coverage score lies in `[0, 1]`. -/
theorem entityScore_bounds (content entity : String) :
    0 ≤ entityScore content entity ∧ entityScore content entity ≤ 1 := by
  unfold entityScore
  dsimp only
  split_ifs with h1 h2
  · norm_num
  · have hle : ((pySplit (pyLower entity)).filter (fun w => strContains content w)).length ≤
        (pySplit (pyLower entity)).length := List.length_filter_le _ _
    have hpos : 0 < (pySplit (pyLower entity)).length := lt_of_lt_of_le h2 hle
    have hq : (((pySplit (pyLower entity)).filter
          (fun w => strContains content w)).length : ℚ) /
        ((pySplit (pyLower entity)).length : ℚ) ≤ 1 := by
      rw [div_le_one (by exact_mod_cast hpos)]
      exact_mod_cast hle
    constructor
    · positivity
    · nlinarith
  · norm_num

/-- The summed entity scores lie between 0 and the number of entities. -/
theorem sum_entityScores_bounds (content : String) (l : List String) :
    0 ≤ (l.map (entityScore content)).sum ∧
      (l.map (entityScore content)).sum ≤ (l.length : ℚ) := by
  induction l with
  | nil => simp
  | cons x xs ih =>
    have hx := entityScore_bounds content x
    simp only [List.map_cons, List.sum_cons, List.length_cons]
    push_cast
    constructor
    · linarith [ih.1, hx.1]
    · linarith [ih.2, hx.2]

/-- Claim C10: the entity-coverage factor returns exactly 1.0 when the
expected `key_entities` list is empty, and its value always lies within
`[0, 1]`. -/
theorem C10_entity_coverage_full_credit_and_bounds :
    (∀ s : AgentState, s.key_entities = [] → _evaluate_entity_coverage s = 1) ∧
    (∀ s : AgentState, 0 ≤ _evaluate_entity_coverage s ∧ _evaluate_entity_coverage s ≤ 1) := by
  constructor
  · intro s h
    unfold _evaluate_entity_coverage
    rw [if_pos h]
  · intro s
    unfold _evaluate_entity_coverage
    dsimp only
    split_ifs with h1 h2 h3 h4
    · norm_num
    · norm_num
    all_goals {
      have hlen : 0 < s.key_entities.length := List.length_pos.mpr h1
      have hsum := sum_entityScores_bounds (pyLower s.lightrag_results.content) s.key_entities
      have hcov0 : 0 ≤ (s.key_entities.map
          (entityScore (pyLower s.lightrag_results.content))).sum /
          (s.key_entities.length : ℚ) := div_nonneg hsum.1 (by positivity)
      rw [pyMin_eq_min]
      constructor
      · exact le_min (by linarith) (by norm_num)
      · exact le_trans (min_le_right _ _) (by norm_num)
    }

/-- Witness for C10 at a state with no expected entities. -/
theorem C10_entity_coverage_witness :
    _evaluate_entity_coverage c10EmptyEntitiesState = 1 :=
  C10_entity_coverage_full_credit_and_bounds.1 c10EmptyEntitiesState rfl

/-- Claim C6: holding everything else in the state fixed (query type,
retrieval mode, retrieved content, the other four factor scores),
increasing the `retrieval_score` input never decreases the composite
confidence produced by the gate. -/
theorem C6_confidence_monotone_in_retrieval_score (s : AgentState) (r₁ r₂ : ℚ)
    (h : r₁ ≤ r₂) :
    (_comprehensive_quality_assessment { s with retrieval_score := r₁ }).confidence_score ≤
      (_comprehensive_quality_assessment { s with retrieval_score := r₂ }).confidence_score := by
  have hproj : ∀ r : ℚ,
      (_comprehensive_quality_assessment { s with retrieval_score := r }).confidence_score =
        pyMin (if contentBonusApplies s then
            weightedFactorSum { s with retrieval_score := r } + localBonusFor s.lightrag_mode
          else weightedFactorSum { s with retrieval_score := r }) 1 := fun r => rfl
  have hw : ∀ r : ℚ, weightedFactorSum { s with retrieval_score := r } =
      r * 0.3 + (_evaluate_content_completeness s * 0.25 +
        _evaluate_entity_coverage s * 0.2 + _evaluate_mode_effectiveness s * 0.15 +
        _evaluate_query_specificity s * 0.1) := by
    intro r
    have e0 : _evaluate_retrieval_score { s with retrieval_score := r } = r := rfl
    have e1 : _evaluate_content_completeness { s with retrieval_score := r } =
      _evaluate_content_completeness s := rfl
    have e2 : _evaluate_entity_coverage { s with retrieval_score := r } =
      _evaluate_entity_coverage s := rfl
    have e3 : _evaluate_mode_effectiveness { s with retrieval_score := r } =
      _evaluate_mode_effectiveness s := rfl
    have e4 : _evaluate_query_specificity { s with retrieval_score := r } =
      _evaluate_query_specificity s := rfl
    unfold weightedFactorSum
    rw [e0, e1, e2, e3, e4]
    ring
  rw [hproj r₁, hproj r₂, hw r₁, hw r₂, pyMin_eq_min, pyMin_eq_min]
  split_ifs with hb
  · exact min_le_min (by linarith) le_rfl
  · exact min_le_min (by linarith) le_rfl

/-- Witness for C6: at a concrete successful-retrieval state, raising the
retrieval score from 0 to 1 does not decrease the composite confidence. -/
theorem C6_confidence_monotone_witness :
    (_comprehensive_quality_assessment
        { c6BaseState with retrieval_score := 0 }).confidence_score ≤
      (_comprehensive_quality_assessment
        { c6BaseState with retrieval_score := 1 }).confidence_score :=
  C6_confidence_monotone_in_retrieval_score c6BaseState 0 1 zero_le_one

/-- Claim C1: the router's output mode always equals the canonical
`type→mode` mapping (unrecognized types default to `hybrid`) — but the
`auto_corrected` flag is `false` for EVERY input, because the source
overwrites its `lightrag_mode` variable before computing the flag.  In
particular, for the concrete violating input `(FACTUAL, hybrid)` the mode
is corrected to `local` while `auto_corrected` still reads `false`,
contradicting the claimed "true iff the input violated the mapping". -/
theorem C1_router_mode_canonical_but_flag_always_false :
    (∀ query_type lightrag_mode user_query : String,
      (_create_validated_route_decision query_type lightrag_mode user_query).lightrag_mode =
        (expectedMapping query_type).getD "hybrid" ∧
      (_create_validated_route_decision query_type lightrag_mode
        user_query).route_decision.auto_corrected = false) ∧
    (_create_validated_route_decision "FACTUAL" "hybrid" "什么是机器学习？").lightrag_mode =
      "local" ∧
    (_create_validated_route_decision "FACTUAL" "hybrid"
      "什么是机器学习？").route_decision.auto_corrected = false := by
  refine ⟨?_, by decide, by decide⟩
  intro t m u
  have hmode : (if m != (expectedMapping t).getD "hybrid"
      then (expectedMapping t).getD "hybrid" else m) = (expectedMapping t).getD "hybrid" := by
    by_cases hm : m = (expectedMapping t).getD "hybrid"
    · simp [hm]
    · simp [hm]
  constructor
  · exact hmode
  · have hauto : (_create_validated_route_decision t m u).route_decision.auto_corrected =
        ((if m != (expectedMapping t).getD "hybrid"
            then (expectedMapping t).getD "hybrid" else m) !=
          (expectedMapping t).getD (if m != (expectedMapping t).getD "hybrid"
            then (expectedMapping t).getD "hybrid" else m)) := rfl
    rw [hauto, hmode]
    rcases hm : expectedMapping t with _ | x <;> simp [hm]

/-- Claim C4: whenever the external structured classification call fails,
the classifier node returns the deterministic fallback — query type
`ANALYTICAL`, mode `hybrid`, no key entities, the raw query as the
processed query — and, being a total function of the failure message, it
never raises. -/
theorem C4_classifier_fallback_deterministic (s : AgentState) (e : String) :
    query_analysis_node s (.error e) = create_fallback_query_analysis s.user_query e ∧
    (query_analysis_node s (.error e)).query_type = "ANALYTICAL" ∧
    (query_analysis_node s (.error e)).lightrag_mode = "hybrid" ∧
    (query_analysis_node s (.error e)).key_entities = [] ∧
    (query_analysis_node s (.error e)).processed_query = s.user_query :=
  ⟨rfl, rfl, rfl, rfl, rfl⟩

/-- Claim C2, evaluated at the failing input of the repository's own test
`test_answer_generation_failure`: when the synthesis LLM call raises, the
node does return the safe error-string answer and does not raise, but —
against the claim (and the test's assertion of 0.0) — the answer
confidence is the normally computed `0.8 + 0.1 = 0.9` and the source list
still carries the retrieval source, because the exception is swallowed
inside `_generate_answer_with_llm` before the node's error branch could
zero them out. -/
theorem C2_llm_failure_keeps_computed_confidence :
    (answer_generation_node answerGenTestState (.error "LLM Error")).final_answer =
      "抱歉，答案生成过程中发生错误: LLM Error" ∧
    (answer_generation_node answerGenTestState (.error "LLM Error")).answer_confidence = 0.9 ∧
    (answer_generation_node answerGenTestState (.error "LLM Error")).sources =
      [SourceEntry.lightrag_knowledge "local"
        (String.mk ("机器学习是一种人工智能技术...".data.take 200) ++ "...") 0 ""] := by
  refine ⟨rfl, ?_, rfl⟩
  have hconf : (answer_generation_node answerGenTestState
      (.error "LLM Error")).answer_confidence =
      pyMin ((0.8 : ℚ) + (0.1 + 0 + 0 + 0)) 1 := rfl
  rw [hconf]
  norm_num [pyMin]

/-- Claim C3, counterexample: at a concrete FACTUAL/local run whose
backend reply reports `success=false`, the selected executor returns a
`success=false`, score-0 stage result without raising, and the run does
NOT abort: the unconditional edge takes it to quality assessment, the
gate forces web escalation, and the remaining edges lead through answer
generation to the `END` terminal (the graph has no error node). -/
theorem C3_retrieval_failure_does_not_abort_counterexample :
    c3SearchOutput.retrieval_success = false ∧
    workflow_successor .local_search c3State1 = some .quality_assessment ∧
    c3Assessment.need_web_search = true ∧
    workflow_successor .quality_assessment c3State2 = some .web_search ∧
    workflow_successor .web_search c3State2 = some .answer_generation ∧
    workflow_successor .answer_generation c3State2 = some .END ∧
    workflow_successor .END c3State2 = none :=
  ⟨rfl, rfl, rfl, rfl, rfl, rfl, rfl⟩

/-- Claim C3 as amended: when the selected retrieval executor's backend
call fails (error reply or exception), the executor degrades — it returns
`success=false` with score 0 and never raises — and the workflow
continues instead of aborting: the executor's edge to quality assessment
is unconditional, the assessment of the failed retrieval forces
`need_web_search`, and the subsequent edges run through web search and
answer generation to the `END` terminal. -/
theorem C3_retrieval_failure_degrades_and_continues (s : AgentState)
    (b : Except String QueryLightragResult)
    (hfail : (∃ e, b = .error e) ∨ (∃ r, b = .ok r ∧ r.success = false)) :
    (local_search_node s b).retrieval_success = false ∧
    (local_search_node s b).retrieval_score = 0 ∧
    workflow_successor .local_search (applySearchOutput s (local_search_node s b)) =
      some .quality_assessment ∧
    (quality_assessment_node (applySearchOutput s (local_search_node s b))).need_web_search =
      true ∧
    workflow_successor .quality_assessment
      (applyAssessment (applySearchOutput s (local_search_node s b))
        (quality_assessment_node (applySearchOutput s (local_search_node s b)))) =
      some .web_search ∧
    (∀ t : AgentState, workflow_successor .web_search t = some .answer_generation) ∧
    (∀ t : AgentState, workflow_successor .answer_generation t = some .END) := by
  rcases hfail with ⟨e, rfl⟩ | ⟨r, rfl, hr⟩
  · exact ⟨rfl, rfl, rfl, rfl, rfl, fun t => rfl, fun t => rfl⟩
  · simp only [local_search_node, hr]
    exact ⟨rfl, rfl, rfl, rfl, rfl, fun t => rfl, fun t => rfl⟩

/-- Witness for the amended C3: a backend exception at the concrete
routed state degrades and the run continues. -/
theorem C3_retrieval_failure_degrades_witness :
    (local_search_node c3InitState c3RaisedBackend).retrieval_success = false ∧
    (local_search_node c3InitState c3RaisedBackend).retrieval_score = 0 ∧
    workflow_successor .local_search
      (applySearchOutput c3InitState (local_search_node c3InitState c3RaisedBackend)) =
      some .quality_assessment ∧
    (quality_assessment_node
      (applySearchOutput c3InitState
        (local_search_node c3InitState c3RaisedBackend))).need_web_search = true ∧
    workflow_successor .quality_assessment
      (applyAssessment
        (applySearchOutput c3InitState (local_search_node c3InitState c3RaisedBackend))
        (quality_assessment_node
          (applySearchOutput c3InitState
            (local_search_node c3InitState c3RaisedBackend)))) = some .web_search ∧
    (∀ t : AgentState, workflow_successor .web_search t = some .answer_generation) ∧
    (∀ t : AgentState, workflow_successor .answer_generation t = some .END) :=
  C3_retrieval_failure_degrades_and_continues c3InitState c3RaisedBackend
    (Or.inl ⟨"timeout", rfl⟩)

/-- Claim C9: for every input list of raw web search results, the
processed list contains only results whose content is the cleaned
(whitespace-collapsed, truncated) form of some input result's content and
exceeds the 50-character minimum; the list is ordered descending by
provider score and capped at the configured maximum; and cleaned content
never exceeds 1003 characters (1000 plus the ellipsis). -/
theorem C9_web_result_processing :
    (∀ s : String, pyLen (_clean_content s) ≤ 1003) ∧
    ∀ search_results : List RawSearchResult,
      (∀ r ∈ _process_search_results search_results,
        50 ≤ pyLen r.content ∧ ∃ raw ∈ search_results, r = processOneResult raw) ∧
      List.Pairwise (fun a b : ProcessedSearchResult => b.score ≤ a.score)
        (_process_search_results search_results) ∧
      (_process_search_results search_results).length ≤ MAX_WEB_RESULTS := by
  constructor
  · intro s
    unfold _clean_content
    dsimp only
    split_ifs with h1 h2
    · simp [pyLen]
    · have hdata : (String.mk ((joinWith " " (pySplit s)).data.take 1000) ++ "...").data =
          (joinWith " " (pySplit s)).data.take 1000 ++ "...".data := rfl
      simp only [pyLen, hdata, List.length_append, List.length_take]
      rw [show "...".data.length = 3 from rfl]
      omega
    · simp only [not_lt] at h2
      exact le_trans h2 (by norm_num)
  · intro l
    refine ⟨?_, ?_, ?_⟩
    · intro r hr
      have h1 : r ∈ ((l.map processOneResult).filter
          (fun r => decide (r.content ≠ "" ∧ 50 < pyLen r.content))).mergeSort
          (fun a b => decide (b.score ≤ a.score)) := List.mem_of_mem_take hr
      have h2 := List.mem_mergeSort.1 h1
      have h3 := List.mem_filter.1 h2
      obtain ⟨raw, hraw, hre⟩ := List.mem_map.1 h3.1
      have hp := of_decide_eq_true h3.2
      exact ⟨le_of_lt hp.2, raw, hraw, hre.symm⟩
    · have htrans : ∀ a b c : ProcessedSearchResult,
          decide (b.score ≤ a.score) → decide (c.score ≤ b.score) →
            decide (c.score ≤ a.score) := by
        intro a b c hab hbc
        exact decide_eq_true (le_trans (of_decide_eq_true hbc) (of_decide_eq_true hab))
      have htotal : ∀ a b : ProcessedSearchResult,
          (decide (b.score ≤ a.score) || decide (a.score ≤ b.score)) = true := by
        intro a b
        rcases le_total b.score a.score with h | h <;> simp [h]
      have hs := List.sorted_mergeSort htrans htotal
        ((l.map processOneResult).filter
          (fun r => decide (r.content ≠ "" ∧ 50 < pyLen r.content)))
      refine List.Pairwise.sublist (List.take_sublist _ _) ?_
      exact hs.imp (fun h => of_decide_eq_true h)
    · simp only [_process_search_results, List.length_take]
      omega

/-- Witness for C9 at a concrete single-result input: the retained result
is the cleaned form of the input and exceeds the length minimum. -/
theorem C9_web_result_processing_witness :
    50 ≤ pyLen processedWebExample.content ∧
    ∃ raw ∈ [rawWebExample], processedWebExample = processOneResult raw := by
  have hlist : _process_search_results [rawWebExample] = [processedWebExample] := by
    unfold _process_search_results processedWebExample
    simp only [List.map_cons, List.map_nil]
    rw [List.filter_cons_of_pos (by decide), List.filter_nil]
    simp [List.mergeSort, MAX_WEB_RESULTS]
  exact (C9_web_result_processing.2 [rawWebExample]).1 processedWebExample
    (by rw [hlist]; exact List.mem_singleton.mpr rfl)
